import Mathlib

/-!
# Verification of the py115 service layer (`src/py115/services.py`)

Shallow embedding of the two service facades (`OfflineService`, `StorageService`)
of `services.py`.  The remote client (`py115/_internal/protocol/client.py`) and the
value-object types (`py115/types.py`) are not part of the sources; they are modelled
from the specification as response oracles and plain value bundles.  Every network
interaction (`self._client.execute_api(...)`) is made observable by returning, next
to the function result, the list of calls that were issued, in order.
-/

namespace Py115

/-! ## Data model -/

/-- Modelled from the spec: a local binary data stream (the `data_io : BinaryIO`
argument of `request_upload_data`).  The code only queries `readable()` and
`seekable()` and otherwise hands the stream to the pre-check spec, so the model
keeps the two capability flags plus the byte content. -/
structure ByteStream where
  readable : Bool
  seekable : Bool
  content : List Nat
deriving DecidableEq, Repr

/-- Modelled from the spec: `UsageError` — a local precondition violation
(non-seekable/non-readable upload source). -/
inductive UsageError where
  | usageError
deriving DecidableEq, Repr

/-- Decoded payload of the upload pre-check endpoint (`upload.InitApi`).
`services.py` only reads the `done` field (line 239); the remaining payload
(remote file identity, callback spec, ...) is kept opaque. -/
structure InitResult where
  done : Bool
  payload : String
deriving DecidableEq, Repr

/-- Modelled from the spec: decoded payload of the credential-only token endpoint
(`upload.TokenApi`): a time-limited credential bundle (endpoint URL, bucket,
access-key triple, policy signature), opaque to `services.py`. -/
structure TokenResult where
  endpoint : String
  credential : String
deriving DecidableEq, Repr

/-- Modelled from the spec: `py115.types.UploadTicket`.  `_create` bundles the
pre-check result with an optional token result; the token part is absent exactly
in the "already stored, nothing to upload" variant. -/
structure UploadTicket where
  init : InitResult
  token : Option TokenResult
deriving DecidableEq, Repr

/-- One network call issued during upload negotiation. -/
inductive UploadCall where
  | initCall (target_id : String) (file_name : String)
  | tokenCall
deriving DecidableEq, Repr

/-- Modelled from the spec: the session/client as seen by the upload negotiation —
a response oracle for the pre-check spec (depending on target id, file name and
the data stream that is fingerprinted) and one for the token spec.  The helper's
auxiliary signature is absorbed into the oracle. -/
structure UploadClient where
  initResponse : String → String → ByteStream → InitResult
  tokenResponse : TokenResult

/-- Modelled from the spec: the local filesystem interface used by
`request_upload` (`os.path.exists`, `os.path.basename`, `open(path, 'rb')`). -/
structure FileSystem where
  pathExists : String → Bool
  basename : String → String
  openFile : String → ByteStream

/-- Decoded payload of the download-request endpoint (`file.DownloadApi`).
`services.py` checks presence of the `url` key (line 184); `url = none` models
a response dict without a `url` key, and the rest of the record is opaque. -/
structure DownloadResult where
  url : Option String
  payload : String
deriving DecidableEq, Repr

/-- Modelled from the spec: `py115.types.DownloadTicket` — a URL string plus the
header mapping required to redeem it. -/
structure DownloadTicket where
  url : String
  headers : List (String × String)
deriving DecidableEq, Repr

/-- Modelled from the spec: the session/client as seen by `request_download` —
the download response oracle (`execute_api(file.DownloadApi(pickcode))`, possibly
absent or without URL), the cookie export scoped to a URL, and the user agent. -/
structure DownloadClient where
  downloadResponse : String → Option DownloadResult
  export_cookies : String → List (String × String)
  user_agent : String

/-- `py115.types.Task`: immutable wrapper around one decoded task record
(`Task(t)` at `services.py` line 38). -/
structure Task (α : Type) where
  raw : α
deriving DecidableEq, Repr

/-- `py115.types.File`: immutable wrapper around one decoded file record
(`File(f)` at `services.py` line 122). -/
structure File (α : Type) where
  raw : α
deriving DecidableEq, Repr

/-- One page of the offline task listing endpoint, as read by
`OfflineService.list`: the `tasks`, `page` and `page_count` response fields. -/
structure TaskPage (α : Type) where
  tasks : List α
  page : Nat
  page_count : Nat
deriving DecidableEq, Repr

/-- One page of the file listing endpoint, as read by `StorageService.list`:
the `files`, `offset` and `count` response fields. -/
structure FilePage (α : Type) where
  files : List α
  offset : Nat
  count : Nat
deriving DecidableEq, Repr

/-- One network call issued by a bulk operation of the facades. -/
inductive NetCall where
  | addUrls (app_ver : String) (user_id : String) (urls : List String)
  | deleteTasks (task_ids : List String)
  | moveFiles (target_dir_id : String) (file_ids : List String)
  | deleteFiles (file_ids : List String)
deriving DecidableEq, Repr

/-- Modelled from the spec: the client as seen by `OfflineService.add_url` — the
response oracle for `offline.AddUrlsApi(app_ver, user_id, urls)`, yielding one
decoded task record per URL. -/
structure BulkClient where
  addUrlsResponse : String → String → List String → List String

/-! ## Operations -/

/-- The pagination loop of `StorageService.list` (`services.py` lines 119-127):
execute the spec at the current offset, yield each file of the page wrapped as a
`File`, compute `next_offset = result.offset + len(result.files)`, stop when
`next_offset >= result.count`, otherwise set the spec's offset to `next_offset`
and repeat.  The server is a response oracle indexed by the spec's offset
cursor; the second component records the offsets the spec was executed at.
`fuel` bounds the number of iterations (the Python generator is unbounded). -/
def listFilesLoop {α : Type} (server : Nat → FilePage α) :
    Nat → Nat → List (File α) × List Nat
  | 0, _ => ([], [])
  | fuel + 1, off =>
    let result := server off
    let next_offset := result.offset + result.files.length
    if next_offset ≥ result.count then
      (result.files.map File.mk, [off])
    else
      let rest := listFilesLoop server fuel next_offset
      (result.files.map File.mk ++ rest.1, off :: rest.2)

/-- `StorageService.list` (`services.py` lines 109-127): the loop started with a
fresh `file.ListApi(dir_id)` spec, whose offset cursor starts at 0
(modelled from the spec: the file listing is offset-indexed, 0-based). -/
def StorageService.list {α : Type} (server : Nat → FilePage α) (fuel : Nat) :
    List (File α) × List Nat :=
  listFilesLoop server fuel 0

/-- The pagination loop of `OfflineService.list` (`services.py` lines 35-43):
execute the spec at the current page, yield each task of the page wrapped as a
`Task`, read `(page, page_count)` from the response, continue at `page + 1`
when `page < page_count`, terminate otherwise.  The server is a response oracle
indexed by the spec's page cursor; the second component records the pages the
spec was executed at. -/
def listTasksLoop {α : Type} (server : Nat → TaskPage α) :
    Nat → Nat → List (Task α) × List Nat
  | 0, _ => ([], [])
  | fuel + 1, page =>
    let result := server page
    if result.page < result.page_count then
      let rest := listTasksLoop server fuel (result.page + 1)
      (result.tasks.map Task.mk ++ rest.1, page :: rest.2)
    else
      (result.tasks.map Task.mk, [page])

/-- `OfflineService.list` (`services.py` lines 28-43): the loop started with a
fresh `offline.ListApi()` spec, whose page cursor starts at 1
(modelled from the spec: the task listing is page-indexed, 1-based). -/
def OfflineService.list {α : Type} (server : Nat → TaskPage α) (fuel : Nat) :
    List (Task α) × List Nat :=
  listTasksLoop server fuel 1

/-- `OfflineService.add_url` (`services.py` lines 45-59): empty varargs
short-circuit to `[]` with no call; otherwise one `offline.AddUrlsApi` call
whose decoded records are wrapped as `Task`s. -/
def OfflineService.add_url (c : BulkClient) (app_ver user_id : String)
    (urls : List String) : List (Task String) × List NetCall :=
  if urls.length = 0 then ([], [])
  else
    ((c.addUrlsResponse app_ver user_id urls).map Task.mk,
     [NetCall.addUrls app_ver user_id urls])

/-- `OfflineService.delete` (`services.py` lines 61-69): empty varargs
short-circuit with no call; otherwise one `offline.DeleteApi` call. -/
def OfflineService.delete (task_ids : List String) : Unit × List NetCall :=
  if task_ids.length = 0 then ((), [])
  else ((), [NetCall.deleteTasks task_ids])

/-- `StorageService.move` (`services.py` lines 129-138): empty varargs
short-circuit with no call; otherwise one `file.MoveApi` call. -/
def StorageService.move (target_dir_id : String) (file_ids : List String) :
    Unit × List NetCall :=
  if file_ids.length = 0 then ((), [])
  else ((), [NetCall.moveFiles target_dir_id file_ids])

/-- `StorageService.delete` (`services.py` lines 149-157): empty varargs
short-circuit with no call; otherwise one `file.DeleteApi` call. -/
def StorageService.delete (file_ids : List String) : Unit × List NetCall :=
  if file_ids.length = 0 then ((), [])
  else ((), [NetCall.deleteFiles file_ids])

/-- `StorageService.request_download` (`services.py` lines 173-194): execute
`file.DownloadApi(pickcode)`; if the response is absent or has no `url` key,
return `None`; otherwise build the required headers — the session's user agent
and a `Cookie` line joining the cookies exported for the response URL with
`'; '` — and create the ticket. -/
def StorageService.request_download (c : DownloadClient) (pickcode : String) :
    Option DownloadTicket :=
  match c.downloadResponse pickcode with
  | none => none
  | some result =>
    match result.url with
    | none => none
    | some u =>
      let cookies := c.export_cookies u
      let headers := [("User-Agent", c.user_agent),
        ("Cookie", String.intercalate "; "
          (cookies.map (fun kv => kv.1 ++ "=" ++ kv.2)))]
      some (DownloadTicket.mk u headers)

/-- `StorageService.request_upload_data` (`services.py` lines 213-241): reject a
stream that is not both readable and seekable by returning `None` with no call;
otherwise execute `upload.InitApi` with target `'U_1_' + dir_id`, and when the
pre-check's `done` field is falsy also execute `upload.TokenApi`; bundle both
results into the ticket.  The Python method never raises a `UsageError` itself,
so every path is `Except.ok`; the second component lists the calls issued. -/
def StorageService.request_upload_data (c : UploadClient)
    (dir_id save_name : String) (stream : ByteStream) :
    Except UsageError (Option UploadTicket) × List UploadCall :=
  if ¬(stream.readable && stream.seekable) then (Except.ok none, [])
  else
    let target_id := "U_1_" ++ dir_id
    let init_result := c.initResponse target_id save_name stream
    let token_result : Option TokenResult :=
      if ¬init_result.done then some c.tokenResponse else none
    (Except.ok (some (UploadTicket.mk init_result token_result)),
     UploadCall.initCall target_id save_name ::
       (if ¬init_result.done then [UploadCall.tokenCall] else []))

/-- `StorageService.request_upload` (`services.py` lines 196-211): when the path
does not exist, return `None` with no network call; otherwise open the file and
delegate to `request_upload_data` with the path's base name. -/
def StorageService.request_upload (fs : FileSystem) (c : UploadClient)
    (dir_id file_path : String) :
    Except UsageError (Option UploadTicket) × List UploadCall :=
  if ¬fs.pathExists file_path then (Except.ok none, [])
  else
    let file_name := fs.basename file_path
    StorageService.request_upload_data c dir_id file_name (fs.openFile file_path)

/-! ## Concrete fixtures used by witnesses and counterexamples -/

/-- A client whose pre-check always answers `done = true`. -/
def doneUploadClient : UploadClient where
  initResponse := fun target_id file_name _ =>
    { done := true, payload := target_id ++ "/" ++ file_name }
  tokenResponse := { endpoint := "oss-cn", credential := "cred" }

/-- A client whose pre-check always answers `done = false`. -/
def pendingUploadClient : UploadClient where
  initResponse := fun target_id file_name _ =>
    { done := false, payload := target_id ++ "/" ++ file_name }
  tokenResponse := { endpoint := "oss-cn", credential := "cred" }

/-- A readable, seekable stream. -/
def regularStream : ByteStream :=
  { readable := true, seekable := true, content := [104, 105] }

/-- A readable but non-seekable stream (a pipe). -/
def pipeStream : ByteStream :=
  { readable := true, seekable := false, content := [104, 105] }

/-- A filesystem on which no path exists. -/
def emptyFS : FileSystem :=
  { pathExists := fun _ => false, basename := fun p => p,
    openFile := fun _ => regularStream }

/-- A client whose download response carries no `url` field. -/
def noUrlDownloadClient : DownloadClient where
  downloadResponse := fun _ => some { url := none, payload := "f" }
  export_cookies := fun _ => []
  user_agent := "Mozilla/5.0"

/-- A client whose download response carries a URL and two cookies. -/
def sampleDownloadClient : DownloadClient where
  downloadResponse := fun pc => some { url := some ("https://dl.example/" ++ pc), payload := pc }
  export_cookies := fun _ => [("UID", "1"), ("CID", "2")]
  user_agent := "Mozilla/5.0"

/-- The ticket `request_download sampleDownloadClient "pc"` produces. -/
def sampleTicket : DownloadTicket :=
  { url := "https://dl.example/pc",
    headers := [("User-Agent", "Mozilla/5.0"), ("Cookie", "UID=1; CID=2")] }

/-- A file-listing server holding 125 records and serving pages of 50. -/
def fileServer125 : Nat → FilePage Nat := fun o =>
  { files := ((List.range 125).drop o).take 50, offset := o, count := 125 }

/-- A file-listing server holding 5 records and serving pages of 2. -/
def fileServer5 : Nat → FilePage Nat := fun o =>
  { files := ((List.range 5).drop o).take 2, offset := o, count := 5 }

/-- A task-listing server with 3 pages of one task each. -/
def taskPages3 : Nat → TaskPage Nat := fun p =>
  { tasks := [p], page := p, page_count := 3 }

/-- A task-listing server with 3 pages of two tasks each. -/
def taskServer3 : Nat → TaskPage Nat := fun p =>
  { tasks := [10 * p, 10 * p + 1], page := p, page_count := 3 }

/-! ## Theorems -/

/-- C1: when the pre-check on a readable, seekable stream reports `done = true`,
the token endpoint is never called and the resulting ticket carries no token
part. -/
theorem upload_precheck_done_skips_token (c : UploadClient)
    (dir_id save_name : String) (stream : ByteStream)
    (hr : stream.readable = true) (hs : stream.seekable = true)
    (hdone : (c.initResponse ("U_1_" ++ dir_id) save_name stream).done = true) :
    UploadCall.tokenCall ∉ (StorageService.request_upload_data c dir_id save_name stream).2 ∧
    (StorageService.request_upload_data c dir_id save_name stream).1 =
      Except.ok (some (UploadTicket.mk
        (c.initResponse ("U_1_" ++ dir_id) save_name stream) none)) := by
  simp [StorageService.request_upload_data, hr, hs, hdone]

/-- C1 witness: a concrete negotiation whose pre-check reports `done = true`. -/
theorem upload_precheck_done_skips_token_witness :
    UploadCall.tokenCall ∉
      (StorageService.request_upload_data doneUploadClient "0" "doc.txt" regularStream).2 ∧
    (StorageService.request_upload_data doneUploadClient "0" "doc.txt" regularStream).1 =
      Except.ok (some (UploadTicket.mk
        (doneUploadClient.initResponse ("U_1_" ++ "0") "doc.txt" regularStream) none)) :=
  upload_precheck_done_skips_token doneUploadClient "0" "doc.txt" regularStream
    rfl rfl rfl

/-- C2: when the pre-check on a readable, seekable stream reports `done = false`,
the token endpoint is called exactly once and the ticket bundles the pre-check
result with the token result. -/
theorem upload_precheck_pending_requests_token_once (c : UploadClient)
    (dir_id save_name : String) (stream : ByteStream)
    (hr : stream.readable = true) (hs : stream.seekable = true)
    (hdone : (c.initResponse ("U_1_" ++ dir_id) save_name stream).done = false) :
    (StorageService.request_upload_data c dir_id save_name stream).2 =
      [UploadCall.initCall ("U_1_" ++ dir_id) save_name, UploadCall.tokenCall] ∧
    ((StorageService.request_upload_data c dir_id save_name stream).2).count
      UploadCall.tokenCall = 1 ∧
    (StorageService.request_upload_data c dir_id save_name stream).1 =
      Except.ok (some (UploadTicket.mk
        (c.initResponse ("U_1_" ++ dir_id) save_name stream)
        (some c.tokenResponse))) := by
  refine ⟨?_, ?_, ?_⟩ <;>
    simp [StorageService.request_upload_data, hr, hs, hdone, List.count_cons]

/-- C2 witness: a concrete negotiation whose pre-check reports `done = false`. -/
theorem upload_precheck_pending_requests_token_once_witness :
    (StorageService.request_upload_data pendingUploadClient "0" "doc.txt" regularStream).2 =
      [UploadCall.initCall ("U_1_" ++ "0") "doc.txt", UploadCall.tokenCall] ∧
    ((StorageService.request_upload_data pendingUploadClient "0" "doc.txt" regularStream).2).count
      UploadCall.tokenCall = 1 ∧
    (StorageService.request_upload_data pendingUploadClient "0" "doc.txt" regularStream).1 =
      Except.ok (some (UploadTicket.mk
        (pendingUploadClient.initResponse ("U_1_" ++ "0") "doc.txt" regularStream)
        (some pendingUploadClient.tokenResponse))) :=
  upload_precheck_pending_requests_token_once pendingUploadClient "0" "doc.txt"
    regularStream rfl rfl rfl

/-- C3 counterexample: on a readable but non-seekable stream the negotiator
returns normally — `None` (no ticket) with zero network calls — and does not
produce a `UsageError`, contrary to the claim that it fails with one. -/
theorem nonseekable_stream_yields_no_usage_error :
    StorageService.request_upload_data doneUploadClient "0" "doc.txt" pipeStream =
      (Except.ok none, []) ∧
    (StorageService.request_upload_data doneUploadClient "0" "doc.txt" pipeStream).1 ≠
      Except.error UsageError.usageError :=
  ⟨rfl, fun h => Except.noConfusion h⟩

/-- C3 amended: a stream that is not both readable and seekable is rejected
before any network call, by returning `None` (an absent ticket) rather than by
raising an error. -/
theorem nonseekable_stream_rejected_before_network (c : UploadClient)
    (dir_id save_name : String) (stream : ByteStream)
    (h : ¬(stream.readable = true ∧ stream.seekable = true)) :
    StorageService.request_upload_data c dir_id save_name stream =
      (Except.ok none, []) := by
  have hb : (stream.readable && stream.seekable) = false := by
    rcases Bool.eq_false_or_eq_true stream.readable with h1 | h1 <;>
      rcases Bool.eq_false_or_eq_true stream.seekable with h2 | h2 <;>
      simp [h1, h2] at h ⊢
  simp [StorageService.request_upload_data, hb]

/-- C3 witness: a concrete non-seekable stream is rejected with no calls. -/
theorem nonseekable_stream_rejected_before_network_witness :
    StorageService.request_upload_data pendingUploadClient "1" "a.bin" pipeStream =
      (Except.ok none, []) :=
  nonseekable_stream_rejected_before_network pendingUploadClient "1" "a.bin"
    pipeStream (by decide)

/-- C6: when the download response is absent or carries no `url` field,
`request_download` returns `None` rather than throwing. -/
theorem request_download_missing_url_returns_none (c : DownloadClient)
    (pickcode : String)
    (h : c.downloadResponse pickcode = none ∨
         ∃ r, c.downloadResponse pickcode = some r ∧ r.url = none) :
    StorageService.request_download c pickcode = none := by
  rcases h with h | ⟨r, hr, hu⟩
  · simp [StorageService.request_download, h]
  · simp [StorageService.request_download, hr, hu]

/-- C6 witness: a concrete response without a `url` field yields `None`. -/
theorem request_download_missing_url_returns_none_witness :
    StorageService.request_download noUrlDownloadClient "abc" = none :=
  request_download_missing_url_returns_none noUrlDownloadClient "abc"
    (Or.inr ⟨{ url := none, payload := "f" }, rfl, rfl⟩)

/-- C9: every ticket produced by `request_download` carries a `User-Agent`
header and a `Cookie` header joining the cookies exported for the ticket's URL
with `'; '`. -/
theorem download_ticket_headers_complete (c : DownloadClient) (pickcode : String)
    (t : DownloadTicket) (h : StorageService.request_download c pickcode = some t) :
    ("User-Agent", c.user_agent) ∈ t.headers ∧
    ("Cookie", String.intercalate "; "
      ((c.export_cookies t.url).map (fun kv => kv.1 ++ "=" ++ kv.2))) ∈ t.headers := by
  unfold StorageService.request_download at h
  split at h
  · exact Option.noConfusion h
  · split at h
    · exact Option.noConfusion h
    · injection h with h
      subst h
      simp

/-- C9 witness: the concrete ticket for pickcode `"pc"` carries both headers. -/
theorem download_ticket_headers_complete_witness :
    ("User-Agent", sampleDownloadClient.user_agent) ∈ sampleTicket.headers ∧
    ("Cookie", String.intercalate "; "
      ((sampleDownloadClient.export_cookies sampleTicket.url).map
        (fun kv => kv.1 ++ "=" ++ kv.2))) ∈ sampleTicket.headers :=
  download_ticket_headers_complete sampleDownloadClient "pc" sampleTicket rfl

/-- C7: every bulk operation called with zero variadic arguments performs zero
network calls and returns immediately. -/
theorem bulk_operations_empty_args_noop (c : BulkClient)
    (app_ver user_id target_dir_id : String) :
    OfflineService.add_url c app_ver user_id [] = ([], []) ∧
    OfflineService.delete [] = ((), []) ∧
    StorageService.move target_dir_id [] = ((), []) ∧
    StorageService.delete [] = ((), []) :=
  ⟨rfl, rfl, rfl, rfl⟩

/-- C10: when the path does not exist, `request_upload` returns `None` with no
network call, rather than raising. -/
theorem request_upload_missing_path_no_calls (fs : FileSystem) (c : UploadClient)
    (dir_id file_path : String) (h : fs.pathExists file_path = false) :
    StorageService.request_upload fs c dir_id file_path = (Except.ok none, []) := by
  simp [StorageService.request_upload, h]

/-- C10 witness: a concrete missing path yields `None` with no calls. -/
theorem request_upload_missing_path_no_calls_witness :
    StorageService.request_upload emptyFS doneUploadClient "0" "/tmp/missing.bin" =
      (Except.ok none, []) :=
  request_upload_missing_path_no_calls emptyFS doneUploadClient "0"
    "/tmp/missing.bin" rfl

/-- C4: the offset-indexed file listing executes the spec, yields the page's
items in order, computes `next = result.offset + len(result.files)`, stops when
`next ≥ result.count` and otherwise advances the offset to `next` and repeats;
in particular, listing 125 files with server page size 50 performs exactly 3
calls at offsets 0, 50, 100 and yields the 125 `File` objects in server
order. -/
theorem file_listing_offset_pagination :
    (∀ (α : Type) (server : Nat → FilePage α) (fuel off : Nat),
      listFilesLoop server (fuel + 1) off =
        if (server off).offset + (server off).files.length ≥ (server off).count then
          ((server off).files.map File.mk, [off])
        else
          ((server off).files.map File.mk ++
             (listFilesLoop server fuel
               ((server off).offset + (server off).files.length)).1,
           off :: (listFilesLoop server fuel
               ((server off).offset + (server off).files.length)).2)) ∧
    StorageService.list fileServer125 4 =
      ((List.range 125).map File.mk, [0, 50, 100]) :=
  ⟨fun _ _ _ _ => rfl, by decide⟩

/-- C8: the task listing is page-indexed and 1-based — it starts at page 1,
reads `(page, page_count)` from each response, advances to `page + 1` exactly
when `page < page_count` and terminates otherwise; a 3-page server is walked
with calls at pages 1, 2, 3. -/
theorem task_listing_page_pagination :
    (∀ (α : Type) (server : Nat → TaskPage α) (fuel page : Nat),
      listTasksLoop server (fuel + 1) page =
        if (server page).page < (server page).page_count then
          ((server page).tasks.map Task.mk ++
             (listTasksLoop server fuel ((server page).page + 1)).1,
           page :: (listTasksLoop server fuel ((server page).page + 1)).2)
        else ((server page).tasks.map Task.mk, [page])) ∧
    OfflineService.list taskPages3 5 =
      ([Task.mk 1, Task.mk 2, Task.mk 3], [1, 2, 3]) :=
  ⟨fun _ _ _ _ => rfl, by decide⟩

/-- Helper: over a server backed by `items` that echoes the requested offset,
reports `items.length` as total and serves at offset `o` a prefix of
`items.drop o` of size `k o` (nonempty while records remain), the offset loop
started at `o` with enough fuel yields exactly `items.drop o`, visits only
offsets `≥ o`, and visits strictly increasing offsets. -/
theorem listFilesLoop_exhaustive {α : Type} (items : List α)
    (server : Nat → FilePage α) (k : Nat → Nat)
    (hoff : ∀ o, (server o).offset = o)
    (hcnt : ∀ o, (server o).count = items.length)
    (hfiles : ∀ o, (server o).files = (items.drop o).take (k o))
    (hpos : ∀ o, o < items.length → 1 ≤ k o) :
    ∀ fuel o, items.length - o < fuel →
      (listFilesLoop server fuel o).1 = (items.drop o).map File.mk ∧
      (∀ x ∈ (listFilesLoop server fuel o).2, o ≤ x) ∧
      (listFilesLoop server fuel o).2.Pairwise (· < ·) := by
  intro fuel
  induction fuel with
  | zero => intro o h; omega
  | succ n ih =>
    intro o h
    simp only [listFilesLoop, hoff, hcnt, hfiles, List.length_take,
      List.length_drop]
    split
    next hstop =>
      have hk : (items.drop o).length ≤ k o := by
        rw [List.length_drop]; omega
      refine ⟨?_, by simp, by simp⟩
      simp [List.take_of_length_le hk]
    next hcont =>
      have ho : o < items.length := by omega
      have hk1 : 1 ≤ k o := hpos o ho
      have hnext := ih (o + (k o ⊓ (items.length - o))) (by omega)
      have htk : (items.drop o).take (k o) =
          (items.drop o).take (k o ⊓ (items.length - o)) := by
        rcases Nat.le_total (k o) (items.length - o) with h1 | h1
        · rw [Nat.min_eq_left h1]
        · have e1 : (items.drop o).take (k o) = items.drop o :=
            List.take_of_length_le (by simpa using h1)
          have e2 : (items.drop o).take (items.length - o) = items.drop o :=
            List.take_of_length_le (by simp)
          rw [Nat.min_eq_right h1, e1, e2]
      refine ⟨?_, ?_, ?_⟩
      · show ((items.drop o).take (k o)).map File.mk ++
            (listFilesLoop server n (o + (k o ⊓ (items.length - o)))).1 =
            (items.drop o).map File.mk
        rw [hnext.1, ← List.map_append, htk]
        congr 1
        rw [← List.drop_drop, List.take_append_drop]
      · show ∀ x ∈ o :: (listFilesLoop server n (o + (k o ⊓ (items.length - o)))).2,
            o ≤ x
        intro x hx
        rcases List.mem_cons.mp hx with hx | hx
        · omega
        · have := hnext.2.1 x hx; omega
      · show (o :: (listFilesLoop server n (o + (k o ⊓ (items.length - o)))).2).Pairwise
            (· < ·)
        refine List.Pairwise.cons ?_ hnext.2.2
        intro x hx
        have := hnext.2.1 x hx
        omega

/-- Helper: over a server that echoes the requested page and reports a constant
`page_count` of `P`, the page loop started at page `p` (with `1 ≤ p ≤ P` and
enough fuel) yields the pages `p, p+1, ..., P` in order, one call each. -/
theorem listTasksLoop_pages {α : Type} (server : Nat → TaskPage α) (P : Nat)
    (hpg : ∀ p, (server p).page = p)
    (hpc : ∀ p, (server p).page_count = P) :
    ∀ fuel p, 1 ≤ p → p ≤ P → P - p < fuel →
      listTasksLoop server fuel p =
        (((List.range' p (P - p + 1)).map
            (fun q => (server q).tasks.map Task.mk)).flatten,
         List.range' p (P - p + 1)) := by
  intro fuel
  induction fuel with
  | zero => intro p h1 h2 h3; omega
  | succ n ih =>
    intro p h1 h2 h3
    simp only [listTasksLoop, hpg, hpc]
    split
    next hlt =>
      rw [ih (p + 1) (by omega) (by omega) (by omega)]
      have hr : P - p + 1 = (P - (p + 1) + 1) + 1 := by omega
      rw [hr, List.range'_succ p (P - (p + 1) + 1) 1]
      simp [List.flatten_cons]
    next hge =>
      have hp : p = P := by omega
      have hr : P - p + 1 = 1 := by omega
      rw [hr, hp]
      simp [List.range'_succ]

/-- C5: for both paginated sequences, under consistent serving — the file
server echoes offsets, reports a fixed backing list's length as `count` and
serves nonempty prefixes of the remainder; the task server echoes pages and
reports a constant `page_count` — file listing yields exactly the backing
records in order (so its length equals the count reported at the first fetch)
at strictly increasing offsets fetched once each, and task listing yields the
pages `1..P` in order, each page fetched exactly once. -/
theorem paginated_listings_exact_once_in_order {α : Type}
    (items : List α) (fserver : Nat → FilePage α) (k : Nat → Nat)
    (hoff : ∀ o, (fserver o).offset = o)
    (hcnt : ∀ o, (fserver o).count = items.length)
    (hfiles : ∀ o, (fserver o).files = (items.drop o).take (k o))
    (hpos : ∀ o, o < items.length → 1 ≤ k o)
    (ffuel : Nat) (hffuel : items.length < ffuel)
    (tserver : Nat → TaskPage α) (P : Nat)
    (hpg : ∀ p, (tserver p).page = p)
    (hpc : ∀ p, (tserver p).page_count = P)
    (hP : 1 ≤ P) (tfuel : Nat) (htfuel : P - 1 < tfuel) :
    ((StorageService.list fserver ffuel).1 = items.map File.mk ∧
     ((StorageService.list fserver ffuel).1).length = (fserver 0).count ∧
     (StorageService.list fserver ffuel).2.Pairwise (· < ·)) ∧
    ((OfflineService.list tserver tfuel).1 =
       ((List.range' 1 P).map (fun q => (tserver q).tasks.map Task.mk)).flatten ∧
     (OfflineService.list tserver tfuel).2 = List.range' 1 P) := by
  have hf := listFilesLoop_exhaustive items fserver k hoff hcnt hfiles hpos
    ffuel 0 (by omega)
  have ht := listTasksLoop_pages tserver P hpg hpc tfuel 1 le_rfl hP (by omega)
  have hP1 : P - 1 + 1 = P := by omega
  rw [hP1] at ht
  refine ⟨⟨?_, ?_, hf.2.2⟩, ?_, ?_⟩
  · simpa [StorageService.list] using hf.1
  · have h1 : (StorageService.list fserver ffuel).1 = items.map File.mk := by
      simpa [StorageService.list] using hf.1
    rw [h1, hcnt 0, List.length_map]
  · show (listTasksLoop tserver tfuel 1).1 = _
    rw [ht]
  · show (listTasksLoop tserver tfuel 1).2 = _
    rw [ht]

/-- C5 witness: a 5-record file server paged by 2 and a 3-page task server. -/
theorem paginated_listings_exact_once_in_order_witness :
    ((StorageService.list fileServer5 6).1 = (List.range 5).map File.mk ∧
     ((StorageService.list fileServer5 6).1).length = (fileServer5 0).count ∧
     (StorageService.list fileServer5 6).2.Pairwise (· < ·)) ∧
    ((OfflineService.list taskServer3 4).1 =
       ((List.range' 1 3).map (fun q => (taskServer3 q).tasks.map Task.mk)).flatten ∧
     (OfflineService.list taskServer3 4).2 = List.range' 1 3) :=
  paginated_listings_exact_once_in_order (List.range 5) fileServer5 (fun _ => 2)
    (fun _ => rfl) (fun _ => rfl) (fun _ => rfl) (fun _ _ => Nat.le_succ 1)
    6 (by decide) taskServer3 3 (fun _ => rfl) (fun _ => rfl) (by decide)
    4 (by decide)

end Py115
